import Mathlib

/-!
Shallow embedding of the cluster statistics aggregation subsystem
(`cluster/gateway/stat.go`) and proofs about it.

Conventions of the embedding:
* Go byte slices holding JSON documents are modelled by the inductive `Blob`;
  `cluster.Pack`/`Unpack` of the binary envelope is modelled structurally
  (a payload either unpacks to a value or does not).
* Machine integers are modelled as `Int`/`Nat` with explicit wrap-around
  (`% 2 ^ 64`) where Go arithmetic overflows.
* IEEE float64 values are modelled exactly over `ℚ`; rounding of float
  arithmetic is not modelled (no theorem below depends on a float64 result).
  The `NaN` sentinel used by the float max/min loops is modelled by `Option`
  (`none` = the initial NaN that is replaced by the first decoded value;
  JSON cannot carry a NaN literal, so inputs are always genuine numbers).
* External collaborators (membership, transport, registry) are parameters.
-/

namespace EGStat

/-- A JSON scalar value as carried inside the `value` sub-blobs.
`jint` is an integer literal (the only shape Go decodes into `int64`/`uint64`),
`jnum` a non-integer number (decodes only into `float64`, modelled over `ℚ`),
`jstr` a string, `jnull` the JSON `null`. -/
inductive Jv where
  | jint (n : Int)
  | jnum (q : ℚ)
  | jstr (s : String)
  | jnull
  deriving DecidableEq, Repr

/-- Decoding a JSON scalar into a Go `int64` (`json.Unmarshal(value, &v)` for
`var v int64`): succeeds exactly for integer literals within the int64 range. -/
def decodeInt64 : Jv → Option Int
  | .jint n => if -(2 ^ 63) ≤ n ∧ n < 2 ^ 63 then some n else none
  | _ => none

/-- Decoding a JSON scalar into a Go `uint64`. -/
def decodeUint64 : Jv → Option Nat
  | .jint n => if 0 ≤ n ∧ n < 2 ^ 64 then some n.toNat else none
  | _ => none

/-- Decoding a JSON scalar into a Go `float64` (any JSON number decodes). -/
def decodeFloat64 : Jv → Option ℚ
  | .jint n => some (n : ℚ)
  | .jnum q => some q
  | _ => none

/-- Two's-complement wrap of an `Int` into the int64 range. -/
def wrapI64 (x : Int) : Int :=
  (x + 2 ^ 63) % 2 ^ 64 - 2 ^ 63

/-- Go `int64` addition (wraps silently on overflow). -/
def addI64 (a b : Int) : Int :=
  wrapI64 (a + b)

/-- Go `uint64` addition (wraps silently on overflow). -/
def addU64 (a b : Nat) : Nat :=
  (a + b) % 2 ^ 64

/-- A JSON document carried in the `Names`/`Value`/`Desc` byte fields of a
partial response.  `namesDoc` models a marshalled `ResultStatIndicatorNames`,
`valueDoc` a marshalled `ResultStatIndicatorValue` (`none` = JSON `null` in the
`value` field), `descDoc` a marshalled `ResultStatIndicatorDesc`, `scalar` a
bare marshalled scalar (the output of a numeric aggregator), `valueList` a
marshalled array of `ResultStatIndicatorValue` (the unknown-indicator
aggregate), and `garbage` any bytes that decode as none of the above. -/
inductive Blob where
  | namesDoc (names : List String)
  | valueDoc (value : Option Jv)
  | descDoc (desc : Option String)
  | scalar (v : Jv)
  | valueList (vs : List Jv)
  | garbage
  deriving DecidableEq, Repr

/-- `json.Unmarshal` of a blob into `ResultStatIndicatorNames`.  Go struct
decoding succeeds on any JSON object and leaves missing fields at their zero
value, so the other document shapes decode with an empty names list, while a
bare scalar or array is a decode error; `none` models a `nil` byte slice
(decode error on empty input). -/
def unmarshalNames : Option Blob → Option (List String)
  | some (.namesDoc xs) => some xs
  | some (.valueDoc _) => some []
  | some (.descDoc _) => some []
  | some (.scalar _) => none
  | some (.valueList _) => none
  | some .garbage => none
  | none => none

/-- `json.Unmarshal` of a blob into `ResultStatIndicatorValue`; the inner
`Option` is the `Value interface{}` field (`none` = Go `nil`). -/
def unmarshalValue : Option Blob → Option (Option Jv)
  | some (.valueDoc v) => some v
  | some (.namesDoc _) => some none
  | some (.descDoc _) => some none
  | some (.scalar _) => none
  | some (.valueList _) => none
  | some .garbage => none
  | none => none

/-- `json.Unmarshal` of a blob into `ResultStatIndicatorDesc`; the inner
`Option` is the `Desc interface{}` field (`none` = Go `nil`). -/
def unmarshalDesc : Option Blob → Option (Option String)
  | some (.descDoc d) => some d
  | some (.namesDoc _) => some none
  | some (.valueDoc _) => some none
  | some (.scalar _) => none
  | some (.valueList _) => none
  | some .garbage => none
  | none => none

/-- Modelled from the spec: the cluster error taxonomy (§7); the concrete
`ClusterErrorType` enumeration lives outside `stat.go`.  Error message strings
are not modelled — an error value is identified by its type. -/
inductive ClusterErrorType where
  | noneError
  | wrongMessageFormatError
  | internalServerError
  | timeoutError
  | issueMemberGoneError
  | pipelineStatNotFoundError
  | retrievePipelineStatValueError
  | retrievePipelineStatDescError
  | retrievePluginStatValueError
  | retrievePluginStatDescError
  | retrieveTaskStatValueError
  | retrieveTaskStatDescError
  deriving DecidableEq, Repr

/-- Modelled from the spec: a partial response (`RespStat`, defined outside
`stat.go`) holds at most one of a names/value/desc JSON blob, plus an optional
typed cluster error.  A `none` field models a `nil` byte slice / `nil` error
pointer. -/
structure RespStat where
  names : Option Blob := none
  value : Option Blob := none
  desc : Option Blob := none
  err : Option ClusterErrorType := none
  deriving DecidableEq, Repr

/-- Modelled from the spec: filter selecting pipeline indicator names. -/
structure FilterPipelineIndicatorNames where
  pipelineName : String
  deriving DecidableEq, Repr

/-- Modelled from the spec: filter selecting one pipeline indicator value. -/
structure FilterPipelineIndicatorValue where
  pipelineName : String
  indicatorName : String
  deriving DecidableEq, Repr

/-- Modelled from the spec: filter selecting one pipeline indicator description. -/
structure FilterPipelineIndicatorDesc where
  pipelineName : String
  indicatorName : String
  deriving DecidableEq, Repr

/-- Modelled from the spec: filter selecting plugin indicator names. -/
structure FilterPluginIndicatorNames where
  pipelineName : String
  pluginName : String
  deriving DecidableEq, Repr

/-- Modelled from the spec: filter selecting one plugin indicator value. -/
structure FilterPluginIndicatorValue where
  pipelineName : String
  pluginName : String
  indicatorName : String
  deriving DecidableEq, Repr

/-- Modelled from the spec: filter selecting one plugin indicator description. -/
structure FilterPluginIndicatorDesc where
  pipelineName : String
  pluginName : String
  indicatorName : String
  deriving DecidableEq, Repr

/-- Modelled from the spec: filter selecting task indicator names. -/
structure FilterTaskIndicatorNames where
  pipelineName : String
  deriving DecidableEq, Repr

/-- Modelled from the spec: filter selecting one task indicator value. -/
structure FilterTaskIndicatorValue where
  pipelineName : String
  indicatorName : String
  deriving DecidableEq, Repr

/-- Modelled from the spec: filter selecting one task indicator description. -/
structure FilterTaskIndicatorDesc where
  pipelineName : String
  indicatorName : String
  deriving DecidableEq, Repr

/-- Modelled from the spec: the query record (`ReqStat`, defined outside
`stat.go`) carrying a timeout and nine nullable filter variants (§3). -/
structure ReqStat where
  timeout : Nat := 0
  filterPipelineIndicatorNames : Option FilterPipelineIndicatorNames := none
  filterPipelineIndicatorValue : Option FilterPipelineIndicatorValue := none
  filterPipelineIndicatorDesc : Option FilterPipelineIndicatorDesc := none
  filterPluginIndicatorNames : Option FilterPluginIndicatorNames := none
  filterPluginIndicatorValue : Option FilterPluginIndicatorValue := none
  filterPluginIndicatorDesc : Option FilterPluginIndicatorDesc := none
  filterTaskIndicatorNames : Option FilterTaskIndicatorNames := none
  filterTaskIndicatorValue : Option FilterTaskIndicatorValue := none
  filterTaskIndicatorDesc : Option FilterTaskIndicatorDesc := none
  deriving DecidableEq, Repr

/-- `unpackReqStat` (source lines 172-270): unpack the envelope body, then
validate the first non-nil filter in source order.  The body is modelled as
`Option ReqStat` (`none` = the bytes do not unpack to a `ReqStat`).  On
failure only the `ClusterErrorType` of the returned error is modelled. -/
def unpackReqStat (payload : Option ReqStat) : Except ClusterErrorType ReqStat :=
  match payload with
  | none => .error .wrongMessageFormatError
  | some reqStat =>
    match reqStat.filterPipelineIndicatorNames with
    | some f =>
      if f.pipelineName.isEmpty then .error .internalServerError else .ok reqStat
    | none =>
    match reqStat.filterPipelineIndicatorValue with
    | some f =>
      if f.pipelineName.isEmpty then .error .internalServerError
      else if f.indicatorName.isEmpty then .error .internalServerError
      else .ok reqStat
    | none =>
    match reqStat.filterPipelineIndicatorDesc with
    | some f =>
      if f.pipelineName.isEmpty then .error .internalServerError
      else if f.indicatorName.isEmpty then .error .internalServerError
      else .ok reqStat
    | none =>
    match reqStat.filterPluginIndicatorNames with
    | some f =>
      if f.pipelineName.isEmpty then .error .internalServerError
      else if f.pluginName.isEmpty then .error .internalServerError
      else .ok reqStat
    | none =>
    match reqStat.filterPluginIndicatorValue with
    | some f =>
      if f.pipelineName.isEmpty then .error .internalServerError
      else if f.pluginName.isEmpty then .error .internalServerError
      else if f.indicatorName.isEmpty then .error .internalServerError
      else .ok reqStat
    | none =>
    match reqStat.filterPluginIndicatorDesc with
    | some f =>
      if f.pipelineName.isEmpty then .error .internalServerError
      else if f.pluginName.isEmpty then .error .internalServerError
      else if f.indicatorName.isEmpty then .error .internalServerError
      else .ok reqStat
    | none =>
    match reqStat.filterTaskIndicatorNames with
    | some f =>
      if f.pipelineName.isEmpty then .error .internalServerError else .ok reqStat
    | none =>
    match reqStat.filterTaskIndicatorValue with
    | some f =>
      if f.pipelineName.isEmpty then .error .internalServerError
      else if f.indicatorName.isEmpty then .error .internalServerError
      else .ok reqStat
    | none =>
    match reqStat.filterTaskIndicatorDesc with
    | some f =>
      if f.pipelineName.isEmpty then .error .internalServerError
      else if f.indicatorName.isEmpty then .error .internalServerError
      else .ok reqStat
    | none => .error .internalServerError

/-- Numeric type tag of a reducer (the `typ interface{}` discriminator of the
`numeric…` functions). -/
inductive NumTyp where
  | f64
  | u64
  | i64
  deriving DecidableEq, Repr

/-- The `float64` loop of `numericSum`: mutable `sum`/`handledAny` become an
explicit accumulator. -/
def sumF64Go : List Jv → ℚ → Bool → ℚ × Bool
  | [], sum, handledAny => (sum, handledAny)
  | v :: rest, sum, handledAny =>
    match decodeFloat64 v with
    | none => sumF64Go rest sum handledAny
    | some x => sumF64Go rest (sum + x) true

/-- The `uint64` loop of `numericSum` (wrapping addition). -/
def sumU64Go : List Jv → Nat → Bool → Nat × Bool
  | [], sum, handledAny => (sum, handledAny)
  | v :: rest, sum, handledAny =>
    match decodeUint64 v with
    | none => sumU64Go rest sum handledAny
    | some x => sumU64Go rest (addU64 sum x) true

/-- The `int64` loop of `numericSum` (wrapping addition). -/
def sumI64Go : List Jv → Int → Bool → Int × Bool
  | [], sum, handledAny => (sum, handledAny)
  | v :: rest, sum, handledAny =>
    match decodeInt64 v with
    | none => sumI64Go rest sum handledAny
    | some x => sumI64Go rest (addI64 sum x) true

/-- `numericSum` (source lines 867-926): init 0, decode each scalar, skip
decode failures, accumulate with the wrapping addition of the numeric type;
`nil` on empty input or when nothing decoded.  The final `json.Marshal` of a
number never fails and is modelled as re-encoding into a `Jv`. -/
def numericSum (typ : NumTyp) (values : List Jv) : Option Jv :=
  if values.length = 0 then none
  else
    match typ with
    | .f64 =>
      match sumF64Go values 0 false with
      | (sum, true) => some (.jnum sum)
      | (_, false) => none
    | .u64 =>
      match sumU64Go values 0 false with
      | (sum, true) => some (.jint (sum : Int))
      | (_, false) => none
    | .i64 =>
      match sumI64Go values 0 false with
      | (sum, true) => some (.jint sum)
      | (_, false) => none

/-- The `float64` loop of `numericMax`; the NaN sentinel that is replaced by
the first decoded value is modelled as `none`. -/
def maxF64Go : List Jv → Option ℚ → Bool → Option ℚ × Bool
  | [], best, handledAny => (best, handledAny)
  | v :: rest, best, handledAny =>
    match decodeFloat64 v with
    | none => maxF64Go rest best handledAny
    | some x =>
      match best with
      | none => maxF64Go rest (some x) true
      | some m => maxF64Go rest (some (max m x)) true

/-- The `uint64` loop of `numericMax` (sentinel 0, `if v > max`). -/
def maxU64Go : List Jv → Nat → Bool → Nat × Bool
  | [], best, handledAny => (best, handledAny)
  | v :: rest, best, handledAny =>
    match decodeUint64 v with
    | none => maxU64Go rest best handledAny
    | some x => maxU64Go rest (if x > best then x else best) true

/-- The `int64` loop of `numericMax` (sentinel `math.MinInt64`). -/
def maxI64Go : List Jv → Int → Bool → Int × Bool
  | [], best, handledAny => (best, handledAny)
  | v :: rest, best, handledAny =>
    match decodeInt64 v with
    | none => maxI64Go rest best handledAny
    | some x => maxI64Go rest (if x > best then x else best) true

/-- `numericMax` (source lines 729-796). -/
def numericMax (typ : NumTyp) (values : List Jv) : Option Jv :=
  if values.length = 0 then none
  else
    match typ with
    | .f64 =>
      match maxF64Go values none false with
      | (some m, true) => some (.jnum m)
      | _ => none
    | .u64 =>
      match maxU64Go values 0 false with
      | (best, true) => some (.jint (best : Int))
      | (_, false) => none
    | .i64 =>
      match maxI64Go values (-(2 ^ 63)) false with
      | (best, true) => some (.jint best)
      | (_, false) => none

/-- The `float64` loop of `numericMin` (NaN sentinel as `none`). -/
def minF64Go : List Jv → Option ℚ → Bool → Option ℚ × Bool
  | [], best, handledAny => (best, handledAny)
  | v :: rest, best, handledAny =>
    match decodeFloat64 v with
    | none => minF64Go rest best handledAny
    | some x =>
      match best with
      | none => minF64Go rest (some x) true
      | some m => minF64Go rest (some (min m x)) true

/-- The `uint64` loop of `numericMin` (sentinel `math.MaxUint64`). -/
def minU64Go : List Jv → Nat → Bool → Nat × Bool
  | [], best, handledAny => (best, handledAny)
  | v :: rest, best, handledAny =>
    match decodeUint64 v with
    | none => minU64Go rest best handledAny
    | some x => minU64Go rest (if x < best then x else best) true

/-- The `int64` loop of `numericMin` (sentinel `math.MaxInt64`). -/
def minI64Go : List Jv → Int → Bool → Int × Bool
  | [], best, handledAny => (best, handledAny)
  | v :: rest, best, handledAny =>
    match decodeInt64 v with
    | none => minI64Go rest best handledAny
    | some x => minI64Go rest (if x < best then x else best) true

/-- `numericMin` (source lines 798-865). -/
def numericMin (typ : NumTyp) (values : List Jv) : Option Jv :=
  if values.length = 0 then none
  else
    match typ with
    | .f64 =>
      match minF64Go values none false with
      | (some m, true) => some (.jnum m)
      | _ => none
    | .u64 =>
      match minU64Go values (2 ^ 64 - 1) false with
      | (best, true) => some (.jint (best : Int))
      | (_, false) => none
    | .i64 =>
      match minI64Go values (2 ^ 63 - 1) false with
      | (best, true) => some (.jint best)
      | (_, false) => none

/-- The aggregator function type (`stateAggregator`). -/
def StateAggregator : Type :=
  List Jv → Option Jv

def maxFloat64 : StateAggregator := numericMax .f64

def minFloat64 : StateAggregator := numericMin .f64

def sumFloat64 : StateAggregator := numericSum .f64

def maxUint64 : StateAggregator := numericMax .u64

def minUint64 : StateAggregator := numericMin .u64

def sumUint64 : StateAggregator := numericSum .u64

def maxInt64 : StateAggregator := numericMax .i64

def minInt64 : StateAggregator := numericMin .i64

def sumInt64 : StateAggregator := numericSum .i64

/-- `pipelineIndicatorAggregateMap` (source lines 1058-1074); a Go map lookup
of a missing key yields `nil`, modelled as `none`. -/
def pipelineIndicatorAggregateMap : String → Option StateAggregator
  | "THROUGHPUT_RATE_LAST_1MIN_ALL" => some sumFloat64
  | "THROUGHPUT_RATE_LAST_5MIN_ALL" => some sumFloat64
  | "THROUGHPUT_RATE_LAST_15MIN_ALL" => some sumFloat64
  | "EXECUTION_COUNT_ALL" => some sumInt64
  | "EXECUTION_TIME_MAX_ALL" => some maxInt64
  | "EXECUTION_TIME_MIN_ALL" => some minInt64
  | "EXECUTION_TIME_50_PERCENT_ALL" => some maxFloat64
  | "EXECUTION_TIME_90_PERCENT_ALL" => some maxFloat64
  | "EXECUTION_TIME_99_PERCENT_ALL" => some maxFloat64
  | "EXECUTION_TIME_STD_DEV_ALL" => some maxFloat64
  | "EXECUTION_TIME_VARIANCE_ALL" => some maxFloat64
  | "EXECUTION_TIME_SUM_ALL" => some sumInt64
  | _ => none

/-- `pluginIndicatorAggregateMap` (source lines 1076-1122); the key
`"RECENT_HEADER_COUNT "` keeps its trailing space from the source. -/
def pluginIndicatorAggregateMap : String → Option StateAggregator
  | "THROUGHPUT_RATE_LAST_1MIN_ALL" => some sumFloat64
  | "THROUGHPUT_RATE_LAST_5MIN_ALL" => some sumFloat64
  | "THROUGHPUT_RATE_LAST_15MIN_ALL" => some sumFloat64
  | "THROUGHPUT_RATE_LAST_1MIN_SUCCESS" => some sumFloat64
  | "THROUGHPUT_RATE_LAST_5MIN_SUCCESS" => some sumFloat64
  | "THROUGHPUT_RATE_LAST_15MIN_SUCCESS" => some sumFloat64
  | "THROUGHPUT_RATE_LAST_1MIN_FAILURE" => some sumFloat64
  | "THROUGHPUT_RATE_LAST_5MIN_FAILURE" => some sumFloat64
  | "THROUGHPUT_RATE_LAST_15MIN_FAILURE" => some sumFloat64
  | "EXECUTION_COUNT_ALL" => some sumInt64
  | "EXECUTION_COUNT_SUCCESS" => some sumInt64
  | "EXECUTION_COUNT_FAILURE" => some sumInt64
  | "EXECUTION_TIME_MAX_ALL" => some maxInt64
  | "EXECUTION_TIME_MAX_SUCCESS" => some maxInt64
  | "EXECUTION_TIME_MAX_FAILURE" => some maxInt64
  | "EXECUTION_TIME_MIN_ALL" => some minInt64
  | "EXECUTION_TIME_MIN_SUCCESS" => some minInt64
  | "EXECUTION_TIME_MIN_FAILURE" => some minInt64
  | "EXECUTION_TIME_50_PERCENT_SUCCESS" => some maxFloat64
  | "EXECUTION_TIME_50_PERCENT_FAILURE" => some maxFloat64
  | "EXECUTION_TIME_90_PERCENT_SUCCESS" => some maxFloat64
  | "EXECUTION_TIME_90_PERCENT_FAILURE" => some maxFloat64
  | "EXECUTION_TIME_99_PERCENT_SUCCESS" => some maxFloat64
  | "EXECUTION_TIME_99_PERCENT_FAILURE" => some maxFloat64
  | "EXECUTION_TIME_STD_DEV_SUCCESS" => some maxFloat64
  | "EXECUTION_TIME_STD_DEV_FAILURE" => some maxFloat64
  | "EXECUTION_TIME_VARIANCE_SUCCESS" => some maxFloat64
  | "EXECUTION_TIME_VARIANCE_FAILURE" => some maxFloat64
  | "EXECUTION_TIME_SUM_ALL" => some sumInt64
  | "EXECUTION_TIME_SUM_SUCCESS" => some sumInt64
  | "EXECUTION_TIME_SUM_FAILURE" => some sumInt64
  | "WAIT_QUEUE_LENGTH" => some sumUint64
  | "WIP_REQUEST_COUNT" => some sumUint64
  | "RECENT_HEADER_COUNT " => some sumUint64
  | _ => none

/-- `taskIndicatorAggregateMap` (source lines 1124-1129). -/
def taskIndicatorAggregateMap : String → Option StateAggregator
  | "EXECUTION_COUNT_ALL" => some sumUint64
  | "EXECUTION_COUNT_SUCCESS" => some sumUint64
  | "EXECUTION_COUNT_FAILURE" => some sumUint64
  | _ => none

/-- `sort.Strings`: lexicographic sort of a string list. -/
def sortStrings (xs : List String) : List String :=
  List.insertionSort (fun a b => a ≤ b) xs

/-- One step of the names-deduplication loop: the `memory` set of the source
is represented by the accumulated output list itself (they always hold the
same elements); a name already seen is dropped, a new one is appended. -/
def dedupAppend (acc : List String) (name : String) : List String :=
  if name ∈ acc then acc else acc ++ [name]

/-- The outer loop of the names branch of `aggregateStatResponses`
(source lines 609-623): decode each partial, skip decode failures,
deduplicate names across partials in first-seen order. -/
def collectNames (respStats : List RespStat) (acc : List String) : List String :=
  match respStats with
  | [] => acc
  | resp :: rest =>
    match unmarshalNames resp.names with
    | none => collectNames rest acc
    | some names => collectNames rest (names.foldl dedupAppend acc)

/-- The names branch of `aggregateStatResponses` (source lines 600-635):
deduplicate, sort, re-marshal (`json.Marshal` of the result never fails). -/
def aggregateNames (respStats : List RespStat) : Option RespStat :=
  some { names := some (.namesDoc (sortStrings (collectNames respStats []))) }

/-- The description branch of `aggregateStatResponses` (source lines 636-653):
return the first partial whose `desc` blob unmarshals with a non-nil `Desc`
field, carrying over that partial's original `desc` bytes; `nil` if none does.
Note the source checks `r.Desc == nil`, not emptiness of the string. -/
def aggregateDesc (respStats : List RespStat) : Option RespStat :=
  match respStats with
  | [] => none
  | resp :: rest =>
    match unmarshalDesc resp.desc with
    | some (some _) => some { desc := resp.desc }
    | _ => aggregateDesc rest

/-- The decoded value of one partial: the value blob must unmarshal and its
`Value` field must be non-nil (source lines 683-691). -/
def decodableValue (resp : RespStat) : Option Jv :=
  match unmarshalValue resp.value with
  | some (some v) => some v
  | _ => none

/-- The tail of the value branch (source lines 678-723): fail on an empty
indicator name, collect the decodable per-member values, then either list them
(unknown indicator) or apply the aggregator (re-marshalling each decoded value
never fails). -/
def aggregateValuesBody (indicatorName : String) (aggregator : Option StateAggregator)
    (respStats : List RespStat) : Option RespStat :=
  if indicatorName.isEmpty then none
  else
    let indicatorValues := respStats.filterMap decodableValue
    match aggregator with
    | none => some { value := some (.valueList indicatorValues) }
    | some aggregator =>
      let values := indicatorValues
      if values.length = 0 then none
      else
        match aggregator values with
        | some v => some { value := some (.scalar v) }
        | none => none

/-- The `FilterTaskIndicatorValue` case body of the value fallthrough chain
(source lines 670-676): if no indicator name was picked up yet, take it from
the task filter and look up the task aggregator map. -/
def valueStepTask (reqStat : ReqStat) (indicatorName : String)
    (aggregator : Option StateAggregator) (respStats : List RespStat) : Option RespStat :=
  if indicatorName.isEmpty then
    match reqStat.filterTaskIndicatorValue with
    | none => none
      -- the source dereferences a nil filter pointer here and panics;
      -- unreachable for queries that passed unpackReqStat validation
    | some f =>
      aggregateValuesBody f.indicatorName
        (match aggregator with
         | none => taskIndicatorAggregateMap f.indicatorName
         | some a => some a) respStats
  else aggregateValuesBody indicatorName aggregator respStats

/-- The `FilterPluginIndicatorValue` case body (source lines 662-668), then
fallthrough to the task case. -/
def valueStepPlugin (reqStat : ReqStat) (indicatorName : String)
    (aggregator : Option StateAggregator) (respStats : List RespStat) : Option RespStat :=
  if indicatorName.isEmpty then
    match reqStat.filterPluginIndicatorValue with
    | none => none
      -- the source dereferences a nil filter pointer here and panics;
      -- unreachable for queries that passed unpackReqStat validation
    | some f =>
      valueStepTask reqStat f.indicatorName
        (match aggregator with
         | none => pluginIndicatorAggregateMap f.indicatorName
         | some a => some a) respStats
  else valueStepTask reqStat indicatorName aggregator respStats

/-- The `FilterPipelineIndicatorValue` case body (source lines 654-660), then
fallthrough to the plugin case. -/
def valueStepPipeline (reqStat : ReqStat) (indicatorName : String)
    (aggregator : Option StateAggregator) (respStats : List RespStat) : Option RespStat :=
  if indicatorName.isEmpty then
    match reqStat.filterPipelineIndicatorValue with
    | none => none
      -- the source dereferences a nil filter pointer here and panics;
      -- unreachable: this body only runs when the pipeline value filter is set
    | some f =>
      valueStepPlugin reqStat f.indicatorName
        (match aggregator with
         | none => pipelineIndicatorAggregateMap f.indicatorName
         | some a => some a) respStats
  else valueStepPlugin reqStat indicatorName aggregator respStats

/-- `aggregateStatResponses` (source lines 595-727).  The Go `switch` takes
the first matching case in source order; the three names cases share one body,
the three desc cases share one body, and the three value cases enter the
fallthrough chain at the first non-nil value filter with an empty indicator
name and a nil aggregator.  No case matching falls through to `nil`. -/
def aggregateStatResponses (reqStat : ReqStat) (respStats : List RespStat) : Option RespStat :=
  match reqStat.filterPipelineIndicatorNames, reqStat.filterPluginIndicatorNames,
      reqStat.filterTaskIndicatorNames with
  | some _, _, _ | _, some _, _ | _, _, some _ => aggregateNames respStats
  | none, none, none =>
    match reqStat.filterPipelineIndicatorDesc, reqStat.filterPluginIndicatorDesc,
        reqStat.filterTaskIndicatorDesc with
    | some _, _, _ | _, some _, _ | _, _, some _ => aggregateDesc respStats
    | none, none, none =>
      match reqStat.filterPipelineIndicatorValue with
      | some _ => valueStepPipeline reqStat "" none respStats
      | none =>
        match reqStat.filterPluginIndicatorValue with
        | some _ => valueStepPlugin reqStat "" none respStats
        | none =>
          match reqStat.filterTaskIndicatorValue with
          | some _ => valueStepTask reqStat "" none respStats
          | none => none

/-- Modelled from the spec: member liveness status (§3); the enumeration
lives in the external `cluster` package. -/
inductive MemberStatus where
  | alive
  | failed
  | left
  deriving DecidableEq, Repr

/-- Modelled from the spec: a cluster member (§3).  `NodeTags` is a string map
modelled as an association list; a missing key reads as `""` like a Go map. -/
structure Member where
  nodeName : String
  nodeTags : List (String × String)
  status : MemberStatus
  deriving DecidableEq, Repr

/-- Go map read `m.NodeTags[k]`: the zero value `""` for a missing key. -/
def tagOf (m : Member) (k : String) : String :=
  (m.nodeTags.lookup k).getD ""

/-- Modelled from the spec: the tag key naming a member's group; the constant
lives outside `stat.go` and only its identity matters here. -/
def groupTagKey : String := "group"

/-- Modelled from the spec: the tag key naming a member's read/write mode. -/
def modeTagKey : String := "mode"

/-- Modelled from the spec: `ReadMode.String()`; only its identity matters. -/
def readModeString : String := "read"

/-- Modelled from the spec: `WriteMode.String()`; only its identity matters. -/
def writeModeString : String := "write"

/-- The alive members of `group` under read mode, in membership order: the
single pass of `chooseMemberToAggregateStat` that appends to `readMembers`
is modelled as a filter. -/
def readMembersOf (members : List Member) (group : String) : List Member :=
  members.filter fun m =>
    tagOf m groupTagKey == group && m.status == MemberStatus.alive &&
      tagOf m modeTagKey == readModeString

/-- The alive members of `group` not under read mode (the `else` branch of the
same pass). -/
def writeMembersOf (members : List Member) (group : String) : List Member :=
  members.filter fun m =>
    tagOf m groupTagKey == group && m.status == MemberStatus.alive &&
      !(tagOf m modeTagKey == readModeString)

/-- `chooseMemberToAggregateStat` (source lines 20-46): prefer a random alive
read-mode member of the group, fall back to a random alive write-mode member,
else fail (`none`).  The process-wide RNG draw is the parameter `r`. -/
def chooseMemberToAggregateStat (members : List Member) (group : String) (r : Nat) :
    Option Member :=
  let readMembers := readMembersOf members group
  let writeMembers := writeMembersOf members group
  if 0 < readMembers.length then readMembers.get? (r % readMembers.length)
  else if 0 < writeMembers.length then writeMembers.get? (r % writeMembers.length)
  else none

/-- The nine-variant statistics filter (`filter interface{}` restricted to the
types the `switch` statements accept). -/
inductive StatFilter where
  | pipelineNames (f : FilterPipelineIndicatorNames)
  | pipelineValue (f : FilterPipelineIndicatorValue)
  | pipelineDesc (f : FilterPipelineIndicatorDesc)
  | pluginNames (f : FilterPluginIndicatorNames)
  | pluginValue (f : FilterPluginIndicatorValue)
  | pluginDesc (f : FilterPluginIndicatorDesc)
  | taskNames (f : FilterTaskIndicatorNames)
  | taskValue (f : FilterTaskIndicatorValue)
  | taskDesc (f : FilterTaskIndicatorDesc)
  deriving DecidableEq, Repr

/-- The `ReqStat` built by `issueStat` from a filter (source lines 51-77). -/
def reqStatOfFilter (timeout : Nat) (filter : StatFilter) : ReqStat :=
  match filter with
  | .pipelineNames f => { timeout, filterPipelineIndicatorNames := some f }
  | .pipelineValue f => { timeout, filterPipelineIndicatorValue := some f }
  | .pipelineDesc f => { timeout, filterPipelineIndicatorDesc := some f }
  | .pluginNames f => { timeout, filterPluginIndicatorNames := some f }
  | .pluginValue f => { timeout, filterPluginIndicatorValue := some f }
  | .pluginDesc f => { timeout, filterPluginIndicatorDesc := some f }
  | .taskNames f => { timeout, filterTaskIndicatorNames := some f }
  | .taskValue f => { timeout, filterTaskIndicatorValue := some f }
  | .taskDesc f => { timeout, filterTaskIndicatorDesc := some f }

/-- Modelled from the spec: the wire message kind byte for `Stat` envelopes;
the numeric value lives outside `stat.go`, only distinctness matters. -/
def statMessage : Nat := 40

/-- Modelled from the spec: the wire message kind byte for `StatRelay`. -/
def statRelayMessage : Nat := 41

/-- A request or response payload on the wire: `[kind:uint8][body]`, where the
body of a stat message either unpacks to a `ReqStat` or not. -/
inductive Payload where
  | empty
  | packed (kind : Nat) (body : Option ReqStat)
  deriving DecidableEq, Repr

/-- A peer's raw reply payload as recorded in `membersRespBook`: empty, or a
kind byte plus a body that unpacks to a `RespStat` or not. -/
inductive PeerPayload where
  | empty
  | packed (kind : Nat) (resp : Option RespStat)
  deriving DecidableEq, Repr

/-- Modelled from the spec: an inbound RPC event (`cluster.RequestEvent`). -/
structure RequestEvent where
  requestName : String
  requestPayload : Payload
  deriving DecidableEq, Repr

/-- An observable effect of a handler: an outbound cluster RPC
(`gc.cluster.Request`), a response via `respondStat` (the `Option` is the
possibly-nil `*RespStat` argument), or an error envelope sent by the external
`respondRetrieveErr` helper. -/
inductive Action where
  | request (requestName : String) (targetNames : List String) (kind : Nat)
      (body : Option ReqStat)
  | respond (kind : Nat) (resp : Option RespStat)
  | respondError (kind : Nat) (typ : ClusterErrorType)
  deriving DecidableEq, Repr

/-- The number of outbound cluster RPCs in a trace. -/
def outboundRequests (trace : List Action) : Nat :=
  (trace.filter fun a =>
    match a with
    | .request _ _ _ _ => true
    | _ => false).length

/-- `respondStat` (source lines 272-290): nothing is sent when the originating
request payload is empty; otherwise the response is packed with the request's
leading kind byte and sent (packing a response value never fails in the model;
a transport error on `Respond` is only logged in the source). -/
def respondStat (req : RequestEvent) (resp : Option RespStat) : List Action :=
  match req.requestPayload with
  | .empty => []
  | .packed kind _ => [.respond kind resp]

/-- `respondStatErr` (source lines 292-297). -/
def respondStatErr (req : RequestEvent) (typ : ClusterErrorType) : List Action :=
  respondStat req (some { err := some typ })

/-- Modelled from the spec: `respondRetrieveErr` (defined outside `stat.go`)
replies with an error envelope of the given type, sending nothing when the
originating request payload is empty, mirroring `respondStat`. -/
def respondRetrieveErr (req : RequestEvent) (typ : ClusterErrorType) : List Action :=
  match req.requestPayload with
  | .empty => []
  | .packed kind _ => [.respondError kind typ]

/-- Modelled from the spec: the per-pipeline registry object (§6), whose
methods are read-only collaborator calls; `none` models a failed call. -/
structure PipelineStat where
  pipelineIndicatorNames : List String
  pipelineIndicatorValue : String → Option Jv
  pipelineIndicatorDescription : String → Option String
  pluginIndicatorNames : String → List String
  pluginIndicatorValue : String → String → Option Jv
  pluginIndicatorDescription : String → String → Option String
  taskIndicatorNames : List String
  taskIndicatorValue : String → Option Jv
  taskIndicatorDescription : String → Option String

/-- Modelled from the spec: the statistics registry (§6); a missing pipeline
reads as `none`. -/
structure StatRegistry where
  getPipelineStatistics : String → Option PipelineStat

/-- `statResult` (source lines 299-457): look up the pipeline, build the
per-facet result document, sort names for stable order, marshal (marshalling
a result never fails in the model). -/
def statResult (registry : StatRegistry) (filter : StatFilter) :
    Except ClusterErrorType Blob :=
  match filter with
  | .pipelineNames f =>
    match registry.getPipelineStatistics f.pipelineName with
    | none => .error .pipelineStatNotFoundError
    | some stat => .ok (.namesDoc (sortStrings stat.pipelineIndicatorNames))
  | .pipelineValue f =>
    match registry.getPipelineStatistics f.pipelineName with
    | none => .error .pipelineStatNotFoundError
    | some stat =>
      match stat.pipelineIndicatorValue f.indicatorName with
      | none => .error .retrievePipelineStatValueError
      | some v => .ok (.valueDoc (some v))
  | .pipelineDesc f =>
    match registry.getPipelineStatistics f.pipelineName with
    | none => .error .pipelineStatNotFoundError
    | some stat =>
      match stat.pipelineIndicatorDescription f.indicatorName with
      | none => .error .retrievePipelineStatDescError
      | some d => .ok (.descDoc (some d))
  | .pluginNames f =>
    match registry.getPipelineStatistics f.pipelineName with
    | none => .error .pipelineStatNotFoundError
    | some stat => .ok (.namesDoc (sortStrings (stat.pluginIndicatorNames f.pluginName)))
  | .pluginValue f =>
    match registry.getPipelineStatistics f.pipelineName with
    | none => .error .pipelineStatNotFoundError
    | some stat =>
      match stat.pluginIndicatorValue f.pluginName f.indicatorName with
      | none => .error .retrievePluginStatValueError
      | some v => .ok (.valueDoc (some v))
  | .pluginDesc f =>
    match registry.getPipelineStatistics f.pipelineName with
    | none => .error .pipelineStatNotFoundError
    | some stat =>
      match stat.pluginIndicatorDescription f.pluginName f.indicatorName with
      | none => .error .retrievePluginStatDescError
      | some d => .ok (.descDoc (some d))
  | .taskNames f =>
    match registry.getPipelineStatistics f.pipelineName with
    | none => .error .pipelineStatNotFoundError
    | some stat => .ok (.namesDoc (sortStrings stat.taskIndicatorNames))
  | .taskValue f =>
    match registry.getPipelineStatistics f.pipelineName with
    | none => .error .pipelineStatNotFoundError
    | some stat =>
      match stat.taskIndicatorValue f.indicatorName with
      | none => .error .retrieveTaskStatValueError
      | some v => .ok (.valueDoc (some v))
  | .taskDesc f =>
    match registry.getPipelineStatistics f.pipelineName with
    | none => .error .pipelineStatNotFoundError
    | some stat =>
      match stat.taskIndicatorDescription f.indicatorName with
      | none => .error .retrieveTaskStatDescError
      | some d => .ok (.descDoc (some d))

/-- `getLocalStatResp` (source lines 459-492): dispatch to `statResult` on the
first non-nil filter in source order and store the blob in the matching
response field; with no filter set the zero-value response is returned. -/
def getLocalStatResp (registry : StatRegistry) (reqStat : ReqStat) :
    Except ClusterErrorType RespStat :=
  match reqStat.filterPipelineIndicatorNames with
  | some f => (statResult registry (.pipelineNames f)).map fun b => { names := some b }
  | none =>
  match reqStat.filterPipelineIndicatorValue with
  | some f => (statResult registry (.pipelineValue f)).map fun b => { value := some b }
  | none =>
  match reqStat.filterPipelineIndicatorDesc with
  | some f => (statResult registry (.pipelineDesc f)).map fun b => { desc := some b }
  | none =>
  match reqStat.filterPluginIndicatorNames with
  | some f => (statResult registry (.pluginNames f)).map fun b => { names := some b }
  | none =>
  match reqStat.filterPluginIndicatorValue with
  | some f => (statResult registry (.pluginValue f)).map fun b => { value := some b }
  | none =>
  match reqStat.filterPluginIndicatorDesc with
  | some f => (statResult registry (.pluginDesc f)).map fun b => { desc := some b }
  | none =>
  match reqStat.filterTaskIndicatorNames with
  | some f => (statResult registry (.taskNames f)).map fun b => { names := some b }
  | none =>
  match reqStat.filterTaskIndicatorValue with
  | some f => (statResult registry (.taskValue f)).map fun b => { value := some b }
  | none =>
  match reqStat.filterTaskIndicatorDesc with
  | some f => (statResult registry (.taskDesc f)).map fun b => { desc := some b }
  | none => .ok {}

/-- `handleStatRelay` (source lines 494-513): bail out on an empty payload,
unpack and validate, resolve locally, reply.  No outbound RPC is ever
issued. -/
def handleStatRelay (registry : StatRegistry) (req : RequestEvent) : List Action :=
  match req.requestPayload with
  | .empty => []
  | .packed _ body =>
    match unpackReqStat body with
    | .error errType => respondStatErr req errType
    | .ok reqStat =>
      match getLocalStatResp registry reqStat with
      | .error errType => respondStatErr req errType
      | .ok resp => respondStat req (some resp)

/-- The peer-reply collection loop of `handleStat` (source lines 570-582):
skip absent or empty payloads, strip the kind byte, skip unpack failures
and partials bearing an error.  `membersRespBook` is keyed by the requested
peer names; Go map iteration order is unspecified and is modelled here as the
peer-list order (no theorem below depends on this order). -/
def collectPeerResps (peers : List String) (membersRespBook : String → Option PeerPayload) :
    List RespStat :=
  peers.filterMap fun name =>
    match membersRespBook name with
    | none => none
    | some .empty => none
    | some (.packed _ none) => none
    | some (.packed _ (some resp)) =>
      match resp.err with
      | some _ => none
      | none => some resp

/-- `handleStat` (source lines 515-591): bail out on an empty payload, unpack
and validate, resolve locally (an error here is replied immediately), fan the
relay envelope out to the alive peers (`restAliveMembersInSameGroup` is the
parameter `peers`, the transport outcome is the parameter `membersRespBook`,
a failing `cluster.Request` is the parameter `requestErr`), collect the valid
partials behind the local one, aggregate, and reply — with the error reply
sent when the aggregate is non-nil and `respondStat` receiving the nil
aggregate otherwise, exactly as the source does. -/
def handleStat (registry : StatRegistry) (peers : List String) (requestErr : Bool)
    (membersRespBook : String → Option PeerPayload) (req : RequestEvent) : List Action :=
  match req.requestPayload with
  | .empty => []
  | .packed _ body =>
    match unpackReqStat body with
    | .error errType => respondStatErr req errType
    | .ok reqStat =>
      match getLocalStatResp registry reqStat with
      | .error errType => respondStatErr req errType
      | .ok localResp =>
        if requestErr then respondRetrieveErr req .internalServerError
        else
          let outbound := Action.request (req.requestName ++ "_relay") peers
            statRelayMessage body
          let validRespList := localResp :: collectPeerResps peers membersRespBook
          match aggregateStatResponses reqStat validRespList with
          | some _ => outbound :: respondRetrieveErr req .internalServerError
          | none => outbound :: respondStat req none

/-- The transport outcome of the single RPC issued by `issueStat`: the
`Request` call itself fails, the stop channel fires, the response channel
closes (timeout), or a member response payload arrives. -/
inductive IssueNetOutcome where
  | requestFailed
  | stopped
  | timedOut
  | responded (payload : PeerPayload)
  deriving DecidableEq, Repr

/-- `issueStat` (source lines 48-169): build the request from the filter,
pack it (packing never fails in the model), choose the target member, issue
the RPC, await the outcome, unpack and project the response field matching
the filter; every failure is returned as a typed cluster error.  The result
is the returned byte slice (`ret`) or the error; the trace records the RPC. -/
def issueStat (members : List Member) (group : String) (r : Nat) (timeout : Nat)
    (requestName : String) (filter : StatFilter) (outcome : IssueNetOutcome) :
    List Action × Except ClusterErrorType Blob :=
  let req := reqStatOfFilter timeout filter
  match chooseMemberToAggregateStat members group r with
  | none => ([], .error .internalServerError)
  | some targetMember =>
    match outcome with
    | .requestFailed => ([], .error .internalServerError)
    | .stopped =>
      ([.request requestName [targetMember.nodeName] statMessage (some req)],
        .error .issueMemberGoneError)
    | .timedOut =>
      ([.request requestName [targetMember.nodeName] statMessage (some req)],
        .error .timeoutError)
    | .responded payload =>
      let act := Action.request requestName [targetMember.nodeName] statMessage (some req)
      match payload with
      | .empty => ([act], .error .internalServerError)
      | .packed _ none => ([act], .error .internalServerError)
      | .packed _ (some resp) =>
        match resp.err with
        | some e => ([act], .error e)
        | none =>
          let ret :=
            match filter with
            | .pipelineNames _ | .pluginNames _ | .taskNames _ => resp.names
            | .pipelineValue _ | .pluginValue _ | .taskValue _ => resp.value
            | .pipelineDesc _ | .pluginDesc _ | .taskDesc _ => resp.desc
          match ret with
          | none => ([act], .error .internalServerError)
          | some b => ([act], .ok b)

instance {ε α : Type} [DecidableEq ε] [DecidableEq α] : DecidableEq (Except ε α)
  | .error a, .error b =>
    if h : a = b then .isTrue (by rw [h]) else .isFalse (by intro hc; cases hc; exact h rfl)
  | .ok a, .ok b =>
    if h : a = b then .isTrue (by rw [h]) else .isFalse (by intro hc; cases hc; exact h rfl)
  | .error _, .ok _ => .isFalse (by intro hc; cases hc)
  | .ok _, .error _ => .isFalse (by intro hc; cases hc)

/-! ## Helper lemmas -/

theorem wrapI64_zero : wrapI64 0 = 0 := by
  decide

theorem wrapI64_wrap_add (s x : Int) : wrapI64 (wrapI64 s + x) = wrapI64 (s + x) := by
  have h63 : (2 : Int) ^ 63 = 9223372036854775808 := by norm_num
  have h64 : (2 : Int) ^ 64 = 18446744073709551616 := by norm_num
  simp only [wrapI64, h63, h64]
  omega

theorem addI64_wrap (s x : Int) : addI64 (wrapI64 s) x = wrapI64 (s + x) := by
  rw [addI64, wrapI64_wrap_add]

theorem addU64_mod (s x : Nat) : addU64 (s % 2 ^ 64) x = (s + x) % 2 ^ 64 := by
  simp [addU64, Nat.mod_add_mod]

theorem sumI64Go_snd (vs : List Jv) (s : Int) (h : Bool) :
    (sumI64Go vs s h).2 = (h || vs.any fun v => (decodeInt64 v).isSome) := by
  induction vs generalizing s h with
  | nil => simp [sumI64Go]
  | cons v rest ih =>
    simp only [sumI64Go, List.any_cons]
    cases hv : decodeInt64 v with
    | none => simp [ih, hv]
    | some x => simp [ih, hv, Bool.or_comm, Bool.or_assoc, Bool.or_left_comm]

theorem sumI64Go_fst (vs : List Jv) (s : Int) (h : Bool) :
    (sumI64Go vs (wrapI64 s) h).1 = wrapI64 (s + (vs.filterMap decodeInt64).sum) := by
  induction vs generalizing s h with
  | nil => simp [sumI64Go]
  | cons v rest ih =>
    simp only [sumI64Go, List.filterMap_cons]
    cases hv : decodeInt64 v with
    | none => simp [hv, ih]
    | some x =>
      simp only [hv, addI64_wrap]
      rw [ih (s + x)]
      simp only [List.sum_cons]
      rw [add_assoc]

theorem sumU64Go_snd (vs : List Jv) (s : Nat) (h : Bool) :
    (sumU64Go vs s h).2 = (h || vs.any fun v => (decodeUint64 v).isSome) := by
  induction vs generalizing s h with
  | nil => simp [sumU64Go]
  | cons v rest ih =>
    simp only [sumU64Go, List.any_cons]
    cases hv : decodeUint64 v with
    | none => simp [ih, hv]
    | some x => simp [ih, hv, Bool.or_comm, Bool.or_assoc, Bool.or_left_comm]

theorem sumU64Go_fst (vs : List Jv) (s : Nat) (h : Bool) :
    (sumU64Go vs (s % 2 ^ 64) h).1 = (s + (vs.filterMap decodeUint64).sum) % 2 ^ 64 := by
  induction vs generalizing s h with
  | nil => simp [sumU64Go]
  | cons v rest ih =>
    simp only [sumU64Go, List.filterMap_cons]
    cases hv : decodeUint64 v with
    | none =>
      simp only [hv]
      exact ih s h
    | some x =>
      simp only [hv, addU64_mod]
      rw [ih (s + x)]
      simp only [List.sum_cons]
      rw [Nat.add_assoc]

theorem sumF64Go_snd (vs : List Jv) (s : ℚ) (h : Bool) :
    (sumF64Go vs s h).2 = (h || vs.any fun v => (decodeFloat64 v).isSome) := by
  induction vs generalizing s h with
  | nil => simp [sumF64Go]
  | cons v rest ih =>
    simp only [sumF64Go, List.any_cons]
    cases hv : decodeFloat64 v with
    | none => simp [ih, hv]
    | some x => simp [ih, hv, Bool.or_comm, Bool.or_assoc, Bool.or_left_comm]

theorem sumF64Go_fst (vs : List Jv) (s : ℚ) (h : Bool) :
    (sumF64Go vs s h).1 = s + (vs.filterMap decodeFloat64).sum := by
  induction vs generalizing s h with
  | nil => simp [sumF64Go]
  | cons v rest ih =>
    simp only [sumF64Go, List.filterMap_cons]
    cases hv : decodeFloat64 v with
    | none => simp [hv, ih]
    | some x =>
      simp only [hv]
      rw [ih]
      simp only [List.sum_cons]
      rw [add_assoc]

theorem filterMap_nil_iff_not_any {α β : Type} (f : α → Option β) (l : List α) :
    l.filterMap f = [] ↔ (l.any fun a => (f a).isSome) = false := by
  induction l with
  | nil => simp
  | cons a t ih =>
    cases hf : f a with
    | none => simp [List.filterMap_cons, hf, ih]
    | some b => simp [List.filterMap_cons, hf]

theorem sumI64Go_eq (vs : List Jv) :
    sumI64Go vs 0 false
      = (wrapI64 (vs.filterMap decodeInt64).sum, vs.any fun v => (decodeInt64 v).isSome) := by
  have h1 := sumI64Go_fst vs 0 false
  have h2 := sumI64Go_snd vs 0 false
  rw [wrapI64_zero, zero_add] at h1
  rw [Bool.false_or] at h2
  exact Prod.ext h1 h2

theorem sumU64Go_eq (vs : List Jv) :
    sumU64Go vs 0 false
      = ((vs.filterMap decodeUint64).sum % 2 ^ 64, vs.any fun v => (decodeUint64 v).isSome) := by
  have h1 := sumU64Go_fst vs 0 false
  have h2 := sumU64Go_snd vs 0 false
  rw [Nat.zero_mod, Nat.zero_add] at h1
  rw [Bool.false_or] at h2
  exact Prod.ext h1 h2

theorem sumF64Go_eq (vs : List Jv) :
    sumF64Go vs 0 false
      = ((vs.filterMap decodeFloat64).sum, vs.any fun v => (decodeFloat64 v).isSome) := by
  have h1 := sumF64Go_fst vs 0 false
  have h2 := sumF64Go_snd vs 0 false
  rw [zero_add] at h1
  rw [Bool.false_or] at h2
  exact Prod.ext h1 h2

theorem numericSum_i64_eq (vs : List Jv) :
    numericSum .i64 vs =
      if vs.filterMap decodeInt64 = [] then none
      else some (.jint (wrapI64 (vs.filterMap decodeInt64).sum)) := by
  cases vs with
  | nil => rfl
  | cons v rest =>
    have hlen : ¬ ((v :: rest).length = 0) := by simp
    by_cases hnil : (v :: rest).filterMap decodeInt64 = []
    · have hany := (filterMap_nil_iff_not_any decodeInt64 (v :: rest)).mp hnil
      simp [numericSum, sumI64Go_eq, hany, hnil, hlen]
    · have hany : ((v :: rest).any fun v => (decodeInt64 v).isSome) = true := by
        cases hb : (v :: rest).any fun v => (decodeInt64 v).isSome with
        | false => exact absurd ((filterMap_nil_iff_not_any decodeInt64 (v :: rest)).mpr hb) hnil
        | true => rfl
      simp [numericSum, sumI64Go_eq, hany, hnil, hlen]

theorem numericSum_u64_eq (vs : List Jv) :
    numericSum .u64 vs =
      if vs.filterMap decodeUint64 = [] then none
      else some (.jint ((((vs.filterMap decodeUint64).sum % 2 ^ 64 : Nat)) : Int)) := by
  cases vs with
  | nil => rfl
  | cons v rest =>
    have hlen : ¬ ((v :: rest).length = 0) := by simp
    by_cases hnil : (v :: rest).filterMap decodeUint64 = []
    · have hany := (filterMap_nil_iff_not_any decodeUint64 (v :: rest)).mp hnil
      simp [numericSum, sumU64Go_eq, hany, hnil, hlen]
    · have hany : ((v :: rest).any fun v => (decodeUint64 v).isSome) = true := by
        cases hb : (v :: rest).any fun v => (decodeUint64 v).isSome with
        | false => exact absurd ((filterMap_nil_iff_not_any decodeUint64 (v :: rest)).mpr hb) hnil
        | true => rfl
      simp [numericSum, sumU64Go_eq, hany, hnil, hlen]

theorem numericSum_f64_eq (vs : List Jv) :
    numericSum .f64 vs =
      if vs.filterMap decodeFloat64 = [] then none
      else some (.jnum (vs.filterMap decodeFloat64).sum) := by
  cases vs with
  | nil => rfl
  | cons v rest =>
    have hlen : ¬ ((v :: rest).length = 0) := by simp
    by_cases hnil : (v :: rest).filterMap decodeFloat64 = []
    · have hany := (filterMap_nil_iff_not_any decodeFloat64 (v :: rest)).mp hnil
      simp [numericSum, sumF64Go_eq, hany, hnil, hlen]
    · have hany : ((v :: rest).any fun v => (decodeFloat64 v).isSome) = true := by
        cases hb : (v :: rest).any fun v => (decodeFloat64 v).isSome with
        | false => exact absurd ((filterMap_nil_iff_not_any decodeFloat64 (v :: rest)).mpr hb) hnil
        | true => rfl
      simp [numericSum, sumF64Go_eq, hany, hnil, hlen]

/-! ## Claim theorems -/

/-- C7: the sum reducer starts from 0, adds every scalar that decodes for its
numeric type, skips scalars that fail to decode, wraps silently on integral
overflow (`% 2 ^ 64` with the two's-complement offset for `int64`), and
returns `none` exactly when the input list is empty or every scalar fails to
decode (for every numeric type); the three int64 counters 17, 25 and 8 sum
to 50. -/
theorem numericSum_sum_of_decoded_wraps_and_none_iff_all_fail (vs : List Jv) :
    (numericSum .i64 vs = none ↔ vs.filterMap decodeInt64 = []) ∧
    (numericSum .u64 vs = none ↔ vs.filterMap decodeUint64 = []) ∧
    (numericSum .f64 vs = none ↔ vs.filterMap decodeFloat64 = []) ∧
    numericSum .i64 vs =
      (if vs.filterMap decodeInt64 = [] then none
       else some (.jint (wrapI64 (vs.filterMap decodeInt64).sum))) ∧
    numericSum .u64 vs =
      (if vs.filterMap decodeUint64 = [] then none
       else some (.jint ((((vs.filterMap decodeUint64).sum % 2 ^ 64 : Nat)) : Int))) ∧
    numericSum .f64 vs =
      (if vs.filterMap decodeFloat64 = [] then none
       else some (.jnum (vs.filterMap decodeFloat64).sum)) ∧
    sumInt64 [.jint 17, .jint 25, .jint 8] = some (.jint 50) := by
  refine ⟨?_, ?_, ?_, numericSum_i64_eq vs, numericSum_u64_eq vs, numericSum_f64_eq vs,
    by decide⟩
  · rw [numericSum_i64_eq vs]
    by_cases h : vs.filterMap decodeInt64 = [] <;> simp [h]
  · rw [numericSum_u64_eq vs]
    by_cases h : vs.filterMap decodeUint64 = [] <;> simp [h]
  · rw [numericSum_f64_eq vs]
    by_cases h : vs.filterMap decodeFloat64 = [] <;> simp [h]

/-- C3 counterexample: a Query that fails selector validation (a
pipeline-names filter with an empty pipeline name) makes `unpackReqStat` fail
with `InternalServerError`, not `WrongMessageFormat` as the claim states. -/
theorem unpackReqStat_validation_not_wrongMessageFormat :
    unpackReqStat (some { filterPipelineIndicatorNames := some { pipelineName := "" } })
      = .error .internalServerError ∧
    ClusterErrorType.internalServerError ≠ ClusterErrorType.wrongMessageFormatError := by
  constructor
  · decide
  · decide

/-- C3 amended: `WrongMessageFormat` is produced only when the envelope body
fails to unpack into a `ReqStat`; a body that unpacks either passes validation
unchanged or fails with `InternalServerError` — in particular every selector
validation failure (empty required selector or no filter variant set) is an
`InternalServerError`. -/
theorem unpackReqStat_validation_fails_with_internalServerError :
    unpackReqStat none = .error .wrongMessageFormatError ∧
    ∀ r : ReqStat, unpackReqStat (some r) = .ok r ∨
      unpackReqStat (some r) = .error .internalServerError := by
  refine ⟨rfl, fun r => ?_⟩
  have hEq : unpackReqStat (some r) = (match r.filterPipelineIndicatorNames with
    | some f =>
      if f.pipelineName.isEmpty then Except.error ClusterErrorType.internalServerError
      else Except.ok r
    | none =>
    match r.filterPipelineIndicatorValue with
    | some f =>
      if f.pipelineName.isEmpty then Except.error ClusterErrorType.internalServerError
      else if f.indicatorName.isEmpty then Except.error ClusterErrorType.internalServerError
      else Except.ok r
    | none =>
    match r.filterPipelineIndicatorDesc with
    | some f =>
      if f.pipelineName.isEmpty then Except.error ClusterErrorType.internalServerError
      else if f.indicatorName.isEmpty then Except.error ClusterErrorType.internalServerError
      else Except.ok r
    | none =>
    match r.filterPluginIndicatorNames with
    | some f =>
      if f.pipelineName.isEmpty then Except.error ClusterErrorType.internalServerError
      else if f.pluginName.isEmpty then Except.error ClusterErrorType.internalServerError
      else Except.ok r
    | none =>
    match r.filterPluginIndicatorValue with
    | some f =>
      if f.pipelineName.isEmpty then Except.error ClusterErrorType.internalServerError
      else if f.pluginName.isEmpty then Except.error ClusterErrorType.internalServerError
      else if f.indicatorName.isEmpty then Except.error ClusterErrorType.internalServerError
      else Except.ok r
    | none =>
    match r.filterPluginIndicatorDesc with
    | some f =>
      if f.pipelineName.isEmpty then Except.error ClusterErrorType.internalServerError
      else if f.pluginName.isEmpty then Except.error ClusterErrorType.internalServerError
      else if f.indicatorName.isEmpty then Except.error ClusterErrorType.internalServerError
      else Except.ok r
    | none =>
    match r.filterTaskIndicatorNames with
    | some f =>
      if f.pipelineName.isEmpty then Except.error ClusterErrorType.internalServerError
      else Except.ok r
    | none =>
    match r.filterTaskIndicatorValue with
    | some f =>
      if f.pipelineName.isEmpty then Except.error ClusterErrorType.internalServerError
      else if f.indicatorName.isEmpty then Except.error ClusterErrorType.internalServerError
      else Except.ok r
    | none =>
    match r.filterTaskIndicatorDesc with
    | some f =>
      if f.pipelineName.isEmpty then Except.error ClusterErrorType.internalServerError
      else if f.indicatorName.isEmpty then Except.error ClusterErrorType.internalServerError
      else Except.ok r
    | none => Except.error ClusterErrorType.internalServerError) := rfl
  rw [hEq]
  repeat first
    | (left; rfl)
    | (right; rfl)
    | split

/-- The names-facet test of a query: any of the three names filters is set
(the first group of cases of the `aggregateStatResponses` switch). -/
def isNamesQuery (r : ReqStat) : Bool :=
  r.filterPipelineIndicatorNames.isSome || r.filterPluginIndicatorNames.isSome ||
    r.filterTaskIndicatorNames.isSome

/-- The desc-facet test of a query: any of the three desc filters is set. -/
def isDescQuery (r : ReqStat) : Bool :=
  r.filterPipelineIndicatorDesc.isSome || r.filterPluginIndicatorDesc.isSome ||
    r.filterTaskIndicatorDesc.isSome

theorem aggregateStatResponses_names_dispatch (r : ReqStat) (rs : List RespStat)
    (h : isNamesQuery r = true) :
    aggregateStatResponses r rs = aggregateNames rs := by
  rcases r with ⟨t0, pn, pv, pd, gn, gv, gd, tn, tv, td⟩
  simp only [isNamesQuery] at h
  cases pn <;> cases gn <;> cases tn <;> simp_all [aggregateStatResponses]

theorem aggregateStatResponses_desc_dispatch (r : ReqStat) (rs : List RespStat)
    (hn : isNamesQuery r = false) (hd : isDescQuery r = true) :
    aggregateStatResponses r rs = aggregateDesc rs := by
  rcases r with ⟨t0, pn, pv, pd, gn, gv, gd, tn, tv, td⟩
  simp only [isNamesQuery] at hn
  simp only [isDescQuery] at hd
  cases pn <;> cases gn <;> cases tn <;> simp_all
  cases pd <;> cases gd <;> cases td <;> simp_all [aggregateStatResponses]

/-- A partial whose `desc` blob unmarshals with a non-nil `Desc` field. -/
def hasDecodableDesc (resp : RespStat) : Bool :=
  match unmarshalDesc resp.desc with
  | some (some _) => true
  | _ => false

theorem aggregateDesc_eq_find (rs : List RespStat) :
    aggregateDesc rs = (rs.find? hasDecodableDesc).map fun resp => { desc := resp.desc } := by
  induction rs with
  | nil => rfl
  | cons resp rest ih =>
    rcases resp with ⟨ns, vl, ds, er⟩
    rcases ds with _ | (xs | v | (_ | s) | v | vs | _) <;>
      simp [aggregateDesc, hasDecodableDesc, unmarshalDesc, List.find?_cons, ih]

/-- C2 counterexample: on a desc-facet query over partials whose descriptions
decode to `""` and `"hello"`, the combiner returns the partial with the empty
description — it does not skip `""` as the claim states. -/
theorem aggregateDesc_returns_empty_string_desc :
    aggregateStatResponses
        { filterPipelineIndicatorDesc := some { pipelineName := "p", indicatorName := "i" } }
        [ { desc := some (.descDoc (some "")) }, { desc := some (.descDoc (some "hello")) } ]
      = some { desc := some (.descDoc (some "")) } ∧
    some { desc := some (Blob.descDoc (some "")) }
      ≠ (some { desc := some (.descDoc (some "hello")) } : Option RespStat) := by
  constructor
  · decide
  · decide

/-- C2 amended: on a desc-facet Query the combiner returns the description
blob of the first partial (in iteration order) whose description decodes to a
non-nil value — the empty string "" included — and returns none exactly when
no partial has such a description. -/
theorem aggregateStatResponses_desc_first_decodable (r : ReqStat) (rs : List RespStat)
    (hn : isNamesQuery r = false) (hd : isDescQuery r = true) :
    aggregateStatResponses r rs
      = (rs.find? hasDecodableDesc).map fun resp => { desc := resp.desc } := by
  rw [aggregateStatResponses_desc_dispatch r rs hn hd, aggregateDesc_eq_find]

/-- C2 amended, witness: the desc-facet hypotheses hold at a concrete
pipeline-desc query and the amended theorem applies there. -/
theorem aggregateStatResponses_desc_first_decodable_witness :
    isNamesQuery { filterPipelineIndicatorDesc := some { pipelineName := "p", indicatorName := "i" } }
        = false ∧
    isDescQuery { filterPipelineIndicatorDesc := some { pipelineName := "p", indicatorName := "i" } }
        = true ∧
    aggregateStatResponses
        { filterPipelineIndicatorDesc := some { pipelineName := "p", indicatorName := "i" } }
        [ { desc := some (.descDoc none) }, { desc := some (.descDoc (some "hello")) } ]
      = (([ { desc := some (.descDoc none) }, { desc := some (.descDoc (some "hello")) } ] :
            List RespStat).find? hasDecodableDesc).map fun resp => { desc := resp.desc } :=
  ⟨by decide, by decide,
    aggregateStatResponses_desc_first_decodable _ _ (by decide) (by decide)⟩

theorem mem_dedupAppend (acc : List String) (n x : String) :
    x ∈ dedupAppend acc n ↔ x ∈ acc ∨ x = n := by
  unfold dedupAppend
  split
  · rename_i hmem
    constructor
    · exact Or.inl
    · rintro (hx | rfl)
      · exact hx
      · exact hmem
  · simp

theorem nodup_dedupAppend (acc : List String) (n : String) (h : acc.Nodup) :
    (dedupAppend acc n).Nodup := by
  unfold dedupAppend
  split
  · exact h
  · rename_i hmem
    simp [List.nodup_append, h, hmem]

theorem mem_foldl_dedupAppend (names acc : List String) (x : String) :
    x ∈ names.foldl dedupAppend acc ↔ x ∈ acc ∨ x ∈ names := by
  induction names generalizing acc with
  | nil => simp
  | cons n t ih =>
    rw [List.foldl_cons, ih, mem_dedupAppend]
    simp only [List.mem_cons]
    tauto

theorem nodup_foldl_dedupAppend (names acc : List String) (h : acc.Nodup) :
    (names.foldl dedupAppend acc).Nodup := by
  induction names generalizing acc with
  | nil => exact h
  | cons n t ih => exact ih _ (nodup_dedupAppend acc n h)

theorem mem_collectNames (rs : List RespStat) (acc : List String) (x : String) :
    x ∈ collectNames rs acc ↔
      x ∈ acc ∨ ∃ resp ∈ rs, ∃ xs, unmarshalNames resp.names = some xs ∧ x ∈ xs := by
  induction rs generalizing acc with
  | nil => simp [collectNames]
  | cons resp rest ih =>
    cases hu : unmarshalNames resp.names with
    | none =>
      rw [show collectNames (resp :: rest) acc = collectNames rest acc by
        simp [collectNames, hu], ih]
      simp only [List.mem_cons]
      constructor
      · rintro (hx | ⟨r, hr, xs, hxs, hmem⟩)
        · exact Or.inl hx
        · exact Or.inr ⟨r, Or.inr hr, xs, hxs, hmem⟩
      · rintro (hx | ⟨r, rfl | hr, xs, hxs, hmem⟩)
        · exact Or.inl hx
        · rw [hu] at hxs
          cases hxs
        · exact Or.inr ⟨r, hr, xs, hxs, hmem⟩
    | some names =>
      rw [show collectNames (resp :: rest) acc
          = collectNames rest (names.foldl dedupAppend acc) by simp [collectNames, hu], ih,
        mem_foldl_dedupAppend]
      simp only [List.mem_cons]
      constructor
      · rintro ((hx | hx) | ⟨r, hr, xs, hxs, hmem⟩)
        · exact Or.inl hx
        · exact Or.inr ⟨resp, Or.inl rfl, names, hu, hx⟩
        · exact Or.inr ⟨r, Or.inr hr, xs, hxs, hmem⟩
      · rintro (hx | ⟨r, rfl | hr, xs, hxs, hmem⟩)
        · exact Or.inl (Or.inl hx)
        · rw [hu] at hxs
          cases hxs
          exact Or.inl (Or.inr hmem)
        · exact Or.inr ⟨r, hr, xs, hxs, hmem⟩

theorem nodup_collectNames (rs : List RespStat) (acc : List String) (h : acc.Nodup) :
    (collectNames rs acc).Nodup := by
  induction rs generalizing acc with
  | nil => exact h
  | cons resp rest ih =>
    cases hu : unmarshalNames resp.names with
    | none =>
      rw [show collectNames (resp :: rest) acc = collectNames rest acc by
        simp [collectNames, hu]]
      exact ih _ h
    | some names =>
      rw [show collectNames (resp :: rest) acc
          = collectNames rest (names.foldl dedupAppend acc) by simp [collectNames, hu]]
      exact ih _ (nodup_foldl_dedupAppend names acc h)

/-- C6: on a Names-facet Query with a non-empty list of partials, the
combiner produces a names list that is sorted lexicographically, free of
duplicates, and equal as a set to the union of the decoded name lists of the
partials (a partial whose names blob fails to decode contributes nothing). -/
theorem aggregateStatResponses_names_sorted_nodup_union (r : ReqStat) (rs : List RespStat)
    (hq : isNamesQuery r = true) (_hne : rs ≠ []) :
    ∃ ns : List String,
      aggregateStatResponses r rs = some { names := some (Blob.namesDoc ns) } ∧
      List.Sorted (fun a b => a ≤ b) ns ∧ ns.Nodup ∧
      ∀ x, x ∈ ns ↔ ∃ resp ∈ rs, ∃ xs, unmarshalNames resp.names = some xs ∧ x ∈ xs := by
  rw [aggregateStatResponses_names_dispatch r rs hq]
  refine ⟨sortStrings (collectNames rs []), rfl, ?_, ?_, fun x => ?_⟩
  · exact List.sorted_insertionSort _ _
  · exact ((List.perm_insertionSort _ _).nodup_iff).mpr (nodup_collectNames rs [] List.nodup_nil)
  · simp only [sortStrings]
    rw [(List.perm_insertionSort _ _).mem_iff, mem_collectNames]
    simp

/-- C6 witness: the hypotheses hold at the concrete scenario-S4 input (peer
name lists `["a", "c"]` and `["b", "a"]` on a pipeline-names query), and the
theorem applies there. -/
theorem aggregateStatResponses_names_sorted_nodup_union_witness :
    isNamesQuery { filterPipelineIndicatorNames := some { pipelineName := "p" } } = true ∧
    ([ { names := some (.namesDoc ["a", "c"]) }, { names := some (.namesDoc ["b", "a"]) } ] :
        List RespStat) ≠ [] ∧
    ∃ ns : List String,
      aggregateStatResponses { filterPipelineIndicatorNames := some { pipelineName := "p" } }
          [ { names := some (.namesDoc ["a", "c"]) }, { names := some (.namesDoc ["b", "a"]) } ]
        = some { names := some (Blob.namesDoc ns) } ∧
      List.Sorted (fun a b => a ≤ b) ns ∧ ns.Nodup ∧
      ∀ x, x ∈ ns ↔ ∃ resp ∈
          ([ { names := some (.namesDoc ["a", "c"]) },
             { names := some (.namesDoc ["b", "a"]) } ] : List RespStat),
        ∃ xs, unmarshalNames resp.names = some xs ∧ x ∈ xs :=
  ⟨by decide, by decide,
    aggregateStatResponses_names_sorted_nodup_union _ _ (by decide) (by decide)⟩

theorem length_filterMap_eq_countP {α β : Type} (f : α → Option β) (l : List α) :
    (l.filterMap f).length = l.countP fun a => (f a).isSome := by
  induction l with
  | nil => rfl
  | cons a t ih =>
    cases hf : f a with
    | none => simp [List.filterMap_cons, List.countP_cons, hf, ih]
    | some b => simp [List.filterMap_cons, List.countP_cons, hf, ih]

/-- C8: on a Value-facet Query (any scope) whose indicator name is non-empty
and absent from that scope's aggregator catalog, the combiner returns the
ordered list of the per-member values that decode successfully, and the length
of that list is the number of partials with a decodable value. -/
theorem aggregateStatResponses_unknown_indicator_lists_values :
    (∀ (f : FilterPipelineIndicatorValue) (rs : List RespStat),
      f.indicatorName.isEmpty = false →
      pipelineIndicatorAggregateMap f.indicatorName = none →
      aggregateStatResponses { filterPipelineIndicatorValue := some f } rs
          = some { value := some (.valueList (rs.filterMap decodableValue)) } ∧
        (rs.filterMap decodableValue).length
          = rs.countP fun resp => (decodableValue resp).isSome) ∧
    (∀ (f : FilterPluginIndicatorValue) (rs : List RespStat),
      f.indicatorName.isEmpty = false →
      pluginIndicatorAggregateMap f.indicatorName = none →
      aggregateStatResponses { filterPluginIndicatorValue := some f } rs
          = some { value := some (.valueList (rs.filterMap decodableValue)) } ∧
        (rs.filterMap decodableValue).length
          = rs.countP fun resp => (decodableValue resp).isSome) ∧
    (∀ (f : FilterTaskIndicatorValue) (rs : List RespStat),
      f.indicatorName.isEmpty = false →
      taskIndicatorAggregateMap f.indicatorName = none →
      aggregateStatResponses { filterTaskIndicatorValue := some f } rs
          = some { value := some (.valueList (rs.filterMap decodableValue)) } ∧
        (rs.filterMap decodableValue).length
          = rs.countP fun resp => (decodableValue resp).isSome) := by
  refine ⟨fun f rs hn ha => ⟨?_, length_filterMap_eq_countP _ _⟩,
    fun f rs hn ha => ⟨?_, length_filterMap_eq_countP _ _⟩,
    fun f rs hn ha => ⟨?_, length_filterMap_eq_countP _ _⟩⟩
  · simp [aggregateStatResponses, valueStepPipeline, valueStepPlugin, valueStepTask,
      aggregateValuesBody, hn, ha]
  · simp [aggregateStatResponses, valueStepPlugin, valueStepTask,
      aggregateValuesBody, hn, ha]
  · simp [aggregateStatResponses, valueStepTask, aggregateValuesBody, hn, ha]

/-- C8 witness: the hypotheses hold at the concrete scenario-S3 input (the
indicator `CUSTOM_X` is absent from the pipeline catalog, two partials carry
decodable values), and the theorem applies there. -/
theorem aggregateStatResponses_unknown_indicator_lists_values_witness :
    ("CUSTOM_X" : String).isEmpty = false ∧
    pipelineIndicatorAggregateMap "CUSTOM_X" = none ∧
    (aggregateStatResponses
        { filterPipelineIndicatorValue := some { pipelineName := "p", indicatorName := "CUSTOM_X" } }
        [ { value := some (.valueDoc (some (.jint 3))) },
          { value := some (.valueDoc (some (.jint 4))) } ]
      = some { value := some (.valueList
          (([ { value := some (.valueDoc (some (.jint 3))) },
              { value := some (.valueDoc (some (.jint 4))) } ] :
            List RespStat).filterMap decodableValue)) } ∧
    (([ { value := some (.valueDoc (some (.jint 3))) },
        { value := some (.valueDoc (some (.jint 4))) } ] :
        List RespStat).filterMap decodableValue).length
      = ([ { value := some (.valueDoc (some (.jint 3))) },
           { value := some (.valueDoc (some (.jint 4))) } ] :
          List RespStat).countP fun resp => (decodableValue resp).isSome) :=
  ⟨by decide, rfl,
    aggregateStatResponses_unknown_indicator_lists_values.1
      { pipelineName := "p", indicatorName := "CUSTOM_X" } _ (by decide) rfl⟩

/-- C5: the member selector returns an alive read-mode member of the group
whenever one exists, otherwise an alive write-mode member of the group
whenever one exists (under the data-model assumption that every member's mode
tag is read or write), and otherwise fails — in which case `issueStat`
returns the selection error before attempting any RPC (empty action trace). -/
theorem chooseMember_prefers_read_else_write_else_no_rpc (members : List Member)
    (group : String) (r : Nat)
    (hmode : ∀ m ∈ members, tagOf m modeTagKey = readModeString ∨
      tagOf m modeTagKey = writeModeString) :
    (readMembersOf members group ≠ [] →
      ∃ m, chooseMemberToAggregateStat members group r = some m ∧
        m ∈ readMembersOf members group) ∧
    (readMembersOf members group = [] → writeMembersOf members group ≠ [] →
      ∃ m, chooseMemberToAggregateStat members group r = some m ∧
        m ∈ writeMembersOf members group ∧ tagOf m modeTagKey = writeModeString) ∧
    (readMembersOf members group = [] → writeMembersOf members group = [] →
      chooseMemberToAggregateStat members group r = none ∧
      ∀ timeout requestName filter outcome,
        issueStat members group r timeout requestName filter outcome
          = ([], .error .internalServerError)) := by
  refine ⟨fun hne => ?_, fun h0 hne => ?_, fun h0 h1 => ?_⟩
  · have hpos : 0 < (readMembersOf members group).length :=
      List.length_pos.mpr hne
    have hlt : r % (readMembersOf members group).length
        < (readMembersOf members group).length := Nat.mod_lt _ hpos
    unfold chooseMemberToAggregateStat
    rw [if_pos hpos, List.get?_eq_get hlt]
    exact ⟨_, rfl, List.get_mem _ _ _⟩
  · have hz : ¬ 0 < (readMembersOf members group).length := by
      rw [h0]
      simp
    have hpos : 0 < (writeMembersOf members group).length :=
      List.length_pos.mpr hne
    have hlt : r % (writeMembersOf members group).length
        < (writeMembersOf members group).length := Nat.mod_lt _ hpos
    unfold chooseMemberToAggregateStat
    rw [if_neg hz, if_pos hpos, List.get?_eq_get hlt]
    refine ⟨_, rfl, List.get_mem _ _ _, ?_⟩
    have hmem := List.get_mem (writeMembersOf members group) _ hlt
    unfold writeMembersOf at hmem
    rw [List.mem_filter] at hmem
    rcases hmem with ⟨hin, hp⟩
    simp only [Bool.and_eq_true, Bool.not_eq_true', beq_eq_false_iff_ne, ne_eq] at hp
    rcases hmode _ hin with hr | hw
    · exact absurd hr hp.2
    · exact hw
  · have hz : ¬ 0 < (readMembersOf members group).length := by
      rw [h0]
      simp
    have hz1 : ¬ 0 < (writeMembersOf members group).length := by
      rw [h1]
      simp
    have hchoose : chooseMemberToAggregateStat members group r = none := by
      unfold chooseMemberToAggregateStat
      rw [if_neg hz, if_neg hz1]
    refine ⟨hchoose, fun timeout requestName filter outcome => ?_⟩
    unfold issueStat
    rw [hchoose]

/-- C5 witness: the mode hypothesis holds at a concrete two-member snapshot
(one alive read member, one alive write member of group g), and the theorem
applies there. -/
theorem chooseMember_prefers_read_else_write_else_no_rpc_witness :
    (∀ m ∈ ([ { nodeName := "n1", nodeTags := [("group", "g"), ("mode", "read")],
                status := .alive },
              { nodeName := "n2", nodeTags := [("group", "g"), ("mode", "write")],
                status := .alive } ] : List Member),
      tagOf m modeTagKey = readModeString ∨ tagOf m modeTagKey = writeModeString) ∧
    (readMembersOf
        [ { nodeName := "n1", nodeTags := [("group", "g"), ("mode", "read")],
            status := .alive },
          { nodeName := "n2", nodeTags := [("group", "g"), ("mode", "write")],
            status := .alive } ] "g" ≠ [] →
      ∃ m, chooseMemberToAggregateStat
          [ { nodeName := "n1", nodeTags := [("group", "g"), ("mode", "read")],
              status := .alive },
            { nodeName := "n2", nodeTags := [("group", "g"), ("mode", "write")],
              status := .alive } ] "g" 0 = some m ∧
        m ∈ readMembersOf
          [ { nodeName := "n1", nodeTags := [("group", "g"), ("mode", "read")],
              status := .alive },
            { nodeName := "n2", nodeTags := [("group", "g"), ("mode", "write")],
              status := .alive } ] "g") :=
  ⟨by decide,
    (chooseMember_prefers_read_else_write_else_no_rpc _ "g" 0 (by decide)).1⟩

/-- C4 counterexample: when the local resolver fails (here: the registry has
no pipeline, so `getLocalStatResp` fails with `PipelineStatNotFound`), the
entry handler replies with that local error and performs no fan-out at all
(zero outbound RPCs) — it does not drop the local failure and aggregate peer
replies as the claim states. -/
theorem handleStat_local_error_no_fanout_counterexample :
    handleStat ⟨fun _ => none⟩ ["n2"] false (fun _ => none)
        { requestName := "stat", requestPayload := .packed statMessage
            (some { filterPipelineIndicatorValue :=
                      some { pipelineName := "q", indicatorName := "IND" } }) }
      = [.respond statMessage (some { err := some .pipelineStatNotFoundError })] ∧
    outboundRequests (handleStat ⟨fun _ => none⟩ ["n2"] false (fun _ => none)
        { requestName := "stat", requestPayload := .packed statMessage
            (some { filterPipelineIndicatorValue :=
                      some { pipelineName := "q", indicatorName := "IND" } }) }) = 0 := by
  constructor
  · decide
  · decide

/-- C4 amended: when the local resolver fails on a validated Query, the entry
handler replies immediately with the local error and performs no fan-out; only
failing peer partials are dropped by the collection loop. -/
theorem handleStat_local_error_replies_immediately (registry : StatRegistry)
    (peers : List String) (requestErr : Bool) (book : String → Option PeerPayload)
    (name : String) (kind : Nat) (body : Option ReqStat) (reqStat : ReqStat)
    (t : ClusterErrorType)
    (h1 : unpackReqStat body = .ok reqStat)
    (h2 : getLocalStatResp registry reqStat = .error t) :
    handleStat registry peers requestErr book ⟨name, .packed kind body⟩
      = [.respond kind (some { err := some t })] := by
  simp [handleStat, h1, h2, respondStatErr, respondStat]

/-- C4 amended, witness: the hypotheses hold at a concrete input (an empty
registry fails with `PipelineStatNotFound` on a validated value query), and
the amended theorem applies there. -/
theorem handleStat_local_error_replies_immediately_witness :
    unpackReqStat (some { filterPipelineIndicatorValue :=
                            some { pipelineName := "q", indicatorName := "IND" } })
      = .ok { filterPipelineIndicatorValue :=
                some { pipelineName := "q", indicatorName := "IND" } } ∧
    getLocalStatResp ⟨fun _ => none⟩
        { filterPipelineIndicatorValue := some { pipelineName := "q", indicatorName := "IND" } }
      = .error .pipelineStatNotFoundError ∧
    handleStat ⟨fun _ => none⟩ ["n2"] false (fun _ => none)
        ⟨"stat", .packed statMessage (some { filterPipelineIndicatorValue :=
                                               some { pipelineName := "q", indicatorName := "IND" } })⟩
      = [.respond statMessage (some { err := some .pipelineStatNotFoundError })] :=
  ⟨by decide, by decide,
    handleStat_local_error_replies_immediately ⟨fun _ => none⟩ ["n2"] false (fun _ => none)
      "stat" statMessage
      (some { filterPipelineIndicatorValue :=
                some { pipelineName := "q", indicatorName := "IND" } })
      { filterPipelineIndicatorValue := some { pipelineName := "q", indicatorName := "IND" } }
      ClusterErrorType.pipelineStatNotFoundError (by decide) (by decide)⟩

/-- C1 (code bug): the entry handler replies with an error exactly when the
combiner returns a NON-nil aggregate, and passes the nil aggregate to
`respondStat` when the combiner fails — the inverse of the claim.  At a
names query with one valid local partial the combiner succeeds (`isSome`) yet
the handler emits the `InternalServerError` envelope; at a value query whose
only decodable value fails the int64 decode of the `EXECUTION_COUNT_ALL`
aggregator the combiner returns nil yet the handler responds with the nil
response instead of an error. -/
theorem handleStat_replies_error_iff_aggregate_nonnil :
    (aggregateStatResponses { filterPipelineIndicatorNames := some { pipelineName := "p" } }
        [{ names := some (.namesDoc ["a"]) }]).isSome = true ∧
    handleStat
        ⟨fun name => if name = "p" then
            some { pipelineIndicatorNames := ["a"], pipelineIndicatorValue := fun _ => none,
                   pipelineIndicatorDescription := fun _ => none,
                   pluginIndicatorNames := fun _ => [],
                   pluginIndicatorValue := fun _ _ => none,
                   pluginIndicatorDescription := fun _ _ => none,
                   taskIndicatorNames := [], taskIndicatorValue := fun _ => none,
                   taskIndicatorDescription := fun _ => none }
          else none⟩
        [] false (fun _ => none)
        { requestName := "stat", requestPayload := .packed statMessage
            (some { filterPipelineIndicatorNames := some { pipelineName := "p" } }) }
      = [ .request "stat_relay" [] statRelayMessage
            (some { filterPipelineIndicatorNames := some { pipelineName := "p" } }),
          .respondError statMessage .internalServerError ] ∧
    aggregateStatResponses
        { filterPipelineIndicatorValue :=
              some { pipelineName := "p", indicatorName := "EXECUTION_COUNT_ALL" } }
        [{ value := some (.valueDoc (some (.jstr "x"))) }] = none ∧
    handleStat
        ⟨fun name => if name = "p" then
            some { pipelineIndicatorNames := [],
                   pipelineIndicatorValue := fun _ => some (.jstr "x"),
                   pipelineIndicatorDescription := fun _ => none,
                   pluginIndicatorNames := fun _ => [],
                   pluginIndicatorValue := fun _ _ => none,
                   pluginIndicatorDescription := fun _ _ => none,
                   taskIndicatorNames := [], taskIndicatorValue := fun _ => none,
                   taskIndicatorDescription := fun _ => none }
          else none⟩
        [] false (fun _ => none)
        { requestName := "stat", requestPayload := .packed statMessage
            (some { filterPipelineIndicatorValue :=
                      some { pipelineName := "p", indicatorName := "EXECUTION_COUNT_ALL" } }) }
      = [ .request "stat_relay" [] statRelayMessage
            (some { filterPipelineIndicatorValue :=
                      some { pipelineName := "p", indicatorName := "EXECUTION_COUNT_ALL" } }),
          .respond statMessage none ] := by
  refine ⟨?_, ?_, ?_, ?_⟩ <;> decide

/-- C9: the relay handler never initiates an outbound cluster RPC — for every
registry and every incoming request event, its action trace contains zero
outbound requests. -/
theorem handleStatRelay_no_outbound_rpc (registry : StatRegistry) (req : RequestEvent) :
    outboundRequests (handleStatRelay registry req) = 0 := by
  rcases req with ⟨name, payload⟩
  cases payload with
  | empty => rfl
  | packed kind body =>
    rcases h1 : unpackReqStat body with t | reqStat
    · simp [handleStatRelay, h1, respondStatErr, respondStat, outboundRequests]
    · rcases h2 : getLocalStatResp registry reqStat with t | resp
      · simp [handleStatRelay, h1, h2, respondStatErr, respondStat, outboundRequests]
      · simp [handleStatRelay, h1, h2, respondStat, outboundRequests]

/-- C10: on an empty (zero-byte) request payload the entry handler and the
relay handler return without sending anything at all, and `respondStat`
itself sends nothing for any response value when the originating payload is
empty. -/
theorem emptyPayload_sends_nothing (registry : StatRegistry) (peers : List String)
    (requestErr : Bool) (book : String → Option PeerPayload) (name : String)
    (resp : Option RespStat) :
    handleStat registry peers requestErr book ⟨name, .empty⟩ = [] ∧
    handleStatRelay registry ⟨name, .empty⟩ = [] ∧
    respondStat ⟨name, .empty⟩ resp = [] :=
  ⟨rfl, rfl, rfl⟩

end EGStat
